import Mathlib

/-!
Shallow embedding, in Lean 4, of the submission pipeline of the T-730
Discord/YouTube playlist bot (source under `bot/`), together with proofs of
the behavioural claims about it.

The embedding follows the Python source:
* `bot/retry.py` and the inlined copy in `bot/main.py` (retry executor),
* `bot/youtube/urls.py` (identifier extraction),
* `bot/youtube/__init__.py` (catalog calls and HTTP error reclassification),
* `bot/cooldown.py` and the cooldown helpers in `bot/main.py`,
* the `/addradio` command body in `bot/main.py` (submission orchestrator).

Python exceptions are modelled by an explicit error type, awaited sleeps by a
recorded list of slept durations, and the remote YouTube/Discord collaborators
by explicit oracles passed in as parameters.  Machine floats used for
timestamps are modelled by exact rationals.
-/

namespace T730

/-- The exceptions the pipeline distinguishes: `CredentialsExpiredError`
(carrying its message), `MissingGoogleDependenciesError`, and any other
`Exception` (carrying `str(exc)`). -/
inductive PyErr where
  | cred (msg : String)
  | missingDeps
  | generic (msg : String)

deriving DecidableEq

/-- The text `str(exc)` of a modelled exception.  The message of
`MissingGoogleDependenciesError` is the fixed string from its constructor in
`bot/youtube/__init__.py`. -/
def PyErr.text : PyErr → String
  | .cred m => m
  | .missingDeps =>
      "google-api-python-client dependencies are unavailable. Install" ++
      " bot/requirements.txt or set up the runtime image before running" ++
      " YouTube helpers."
  | .generic m => m

/-! ## Retry executor (`bot/retry.py` and `bot/main.py` lines 27-82) -/

def _FAST_RETRY_DELAY_SECONDS : Nat := 5

def _FAST_RETRY_ATTEMPTS : Nat := 10

def _SLOW_RETRY_DELAYS : List Nat := [60, 300, 600]

/-- `RETRY_WAIT_SECONDS` from `bot/retry.py`:
`(0,) + (5,) * 10 + (60, 300, 600)`. -/
def RETRY_WAIT_SECONDS : List Nat :=
  [0] ++ List.replicate _FAST_RETRY_ATTEMPTS _FAST_RETRY_DELAY_SECONDS ++ _SLOW_RETRY_DELAYS

/-- `_RETRY_WAIT_SECONDS` from `bot/main.py`, built by the same expression. -/
def _RETRY_WAIT_SECONDS : List Nat :=
  [0] ++ List.replicate _FAST_RETRY_ATTEMPTS _FAST_RETRY_DELAY_SECONDS ++ _SLOW_RETRY_DELAYS

/-- `_NON_RETRYABLE_EXCEPTIONS` of `bot/retry.py`:
`(CredentialsExpiredError, MissingGoogleDependenciesError)`. -/
def nonRetryableRetryPy : PyErr → Bool
  | .cred _ => true
  | .missingDeps => true
  | .generic _ => false

/-- `_NON_RETRYABLE_EXCEPTIONS` of `bot/main.py`: `(CredentialsExpiredError,)`. -/
def nonRetryableMainPy : PyErr → Bool
  | .cred _ => true
  | .missingDeps => false
  | .generic _ => false

deriving instance DecidableEq for Except

/-- Observable behaviour of one retry-wrapped call: the returned value or the
exception that escaped, the durations passed to `asyncio.sleep` in order, and
the attempt numbers at which the wrapped function was invoked. -/
structure RetryTrace (α : Type) where
  result : Except PyErr α
  sleeps : List Nat
  calls : List Nat

deriving DecidableEq

/-- The `for attempt, wait_seconds in enumerate(schedule, start=1)` loop shared
by `call_with_retry` (`bot/retry.py`) and `_call_with_retry` (`bot/main.py`),
parameterised by the non-retryable classification `nr` and by the wrapped
function `f`, modelled as a map from attempt number to outcome.  A sleep is
recorded only when `attempt > 1 and wait_seconds` is truthy.  The `[]` case is
unreachable from a nonempty schedule; it mirrors the `assert last_exc` line by
producing a placeholder error. -/
def retryRunList {α : Type} (nr : PyErr → Bool) (f : Nat → Except PyErr α)
    (attempt : Nat) : List Nat → RetryTrace α
  | [] => ⟨.error (.generic "unreachable"), [], []⟩
  | wait :: rest =>
    let sleeps := if attempt > 1 ∧ wait ≠ 0 then [wait] else []
    match f attempt with
    | .ok v => ⟨.ok v, sleeps, [attempt]⟩
    | .error e =>
      if nr e then ⟨.error e, sleeps, [attempt]⟩
      else if rest.isEmpty then ⟨.error e, sleeps, [attempt]⟩
      else
        let t := retryRunList nr f (attempt + 1) rest
        ⟨t.result, sleeps ++ t.sleeps, attempt :: t.calls⟩

/-- `call_with_retry` from `bot/retry.py`. -/
def call_with_retry {α : Type} (f : Nat → Except PyErr α) : RetryTrace α :=
  retryRunList nonRetryableRetryPy f 1 RETRY_WAIT_SECONDS

/-- `_call_with_retry` from `bot/main.py`. -/
def _call_with_retry {α : Type} (f : Nat → Except PyErr α) : RetryTrace α :=
  retryRunList nonRetryableMainPy f 1 _RETRY_WAIT_SECONDS

/-! ## Cooldown tracker (`bot/cooldown.py`) -/

/-- State of `CooldownTracker`: the clamped window (`max(0, cooldown_seconds)`
from `__init__`) and the per-user timestamp map.  Timestamps (Python floats
from `time.time()`) are modelled by exact rationals. -/
structure CooldownTracker where
  cooldownSeconds : Int
  timestamps : Int → Option ℚ

/-- `CooldownTracker.__init__`: clamps the window and starts with an empty
timestamp map. -/
def CooldownTracker.init (cooldown_seconds : Int) : CooldownTracker :=
  ⟨max 0 cooldown_seconds, fun _ => none⟩

/-- The `enabled` property: `self._cooldown_seconds > 0`. -/
def CooldownTracker.enabled (t : CooldownTracker) : Bool :=
  decide (0 < t.cooldownSeconds)

/-- `CooldownTracker.remaining` with the `now` parameter supplied explicitly
(the Python default pulls `time.time()`).  The guard `if not self.enabled`
is written as its integer meaning `cooldownSeconds ≤ 0`. -/
def CooldownTracker.remaining (t : CooldownTracker) (user_id : Int) (now : ℚ) : ℚ :=
  if t.cooldownSeconds ≤ 0 then 0
  else
    match t.timestamps user_id with
    | none => 0
    | some last =>
      let remaining := (t.cooldownSeconds : ℚ) - (now - last)
      if remaining > 0 then remaining else 0

/-- `CooldownTracker.mark` with explicit `now`: no-op when disabled
(`if not self.enabled`, i.e. `cooldownSeconds ≤ 0`), otherwise overwrites the
user's timestamp. -/
def CooldownTracker.mark (t : CooldownTracker) (user_id : Int) (now : ℚ) : CooldownTracker :=
  if t.cooldownSeconds ≤ 0 then t
  else { t with timestamps := fun u => if u = user_id then some now else t.timestamps u }

/-! ## Duration formatting (`bot/main.py` lines 235-240) -/

/-- Python's format spec `{n:02}`: decimal digits, left-padded with zeros to a
minimum width of two. -/
def pad2 (n : Nat) : String :=
  if n < 10 then "0" ++ toString n else toString n

/-- `_format_duration` from `bot/main.py`:
`h, rem = divmod(max(0, int(total_seconds)), 3600)`,
`m, s = divmod(rem, 60)`, then `f"{h}:{m:02}:{s:02}"` when `h` is truthy and
`f"{m}:{s:02}"` otherwise. -/
def _format_duration (total_seconds : Int) : String :=
  let c : Nat := (max 0 total_seconds).toNat
  let h := c / 3600
  let rem := c % 3600
  let m := rem / 60
  let s := rem % 60
  if h ≠ 0 then toString h ++ ":" ++ pad2 m ++ ":" ++ pad2 s
  else toString m ++ ":" ++ pad2 s

/-! ## Identifier extraction (`bot/youtube/urls.py`)

The two `re.findall` scans, `urllib.parse.urlparse`, `parse_qs` and the
`_ID_RE` check are embedded at the level of character lists.  Strings are
`List Char` internally; the public function wraps `String`. -/

/-- `_reauth_hint()` from `bot/youtube/__init__.py`. -/
def _reauth_hint : String :=
  "Google credentials invalid or expired. Re-auth by running one of:\n" ++
  "- Locally: python -m bot.youtube.auth\n" ++
  "- Docker: docker compose run --rm -e OAUTH_FORCE=1 radiobot\n" ++
  "This opens a local URL to complete OAuth and regenerates data/creds.json."

/-- An `HttpError` as the code inspects it:
`getattr(getattr(e, "resp", None), "status", None)` and `str(e)`. -/
structure HttpErrorInfo where
  status : Option Nat
  text : String

deriving DecidableEq

/-- The `except HttpError` arm shared by all three catalog calls: status 401
or 403 becomes `CredentialsExpiredError(_reauth_hint())`, anything else a
`RuntimeError` prefixing `str(e)` with the call-specific message. -/
def reclassifyHttp (wrapMsg : String) (e : HttpErrorInfo) : PyErr :=
  if e.status = some 401 ∨ e.status = some 403 then .cred _reauth_hint
  else .generic (wrapMsg ++ e.text)

/-- One page of `playlistItems().list(...).execute()`: the
`contentDetails.videoId` of each item (`none` when the key is missing) and
the `nextPageToken`. -/
structure PlaylistPage where
  videoIds : List (Option String)
  nextPageToken : Option String

deriving DecidableEq

/-- The `while True` pagination loop of `video_exists`.  `pages i` is the
response to the `i`-th page request (`i = 0` requests without `pageToken`).
`fuel` bounds the iterations; `none` means the loop is still running after
`fuel` pages (the Python loop terminates only when a page has a falsy
`nextPageToken` or a match/error occurs). -/
def video_exists_from (video_id : String)
    (pages : Nat → Except HttpErrorInfo PlaylistPage) :
    Nat → Nat → Option (Except PyErr Bool)
  | 0, _ => none
  | fuel + 1, i =>
    match pages i with
    | .error e =>
      some (.error (reclassifyHttp "YouTube API error checking playlist: " e))
    | .ok page =>
      if page.videoIds.contains (some video_id) then some (.ok true)
      else
        match page.nextPageToken with
        | none => some (.ok false)
        | some t =>
          if t = "" then some (.ok false)
          else video_exists_from video_id pages fuel (i + 1)

/-- `video_exists` from `bot/youtube/__init__.py`, started at the first page. -/
def video_exists (video_id : String)
    (pages : Nat → Except HttpErrorInfo PlaylistPage) (fuel : Nat) :
    Option (Except PyErr Bool) :=
  video_exists_from video_id pages fuel 0

/-- The metadata dict returned by `get_video_metadata` (and consumed by the
orchestrator, where it may also come from a monkeypatched stub): `title` is
`none` when the key is absent, `duration_seconds` likewise — the orchestrator
reads it with default `0`. -/
structure VideoMeta where
  id : String
  title : Option String
  channel_title : String
  duration_seconds : Option Int
  url : String
  thumbnail_url : Option String

deriving DecidableEq

/-- `MAX_VIDEO_DURATION_SECONDS = 10 * 60` from `bot/main.py`. -/
def MAX_VIDEO_DURATION_SECONDS : Int := 10 * 60

/-- Python `meta.get("title") or vid`: `None` and the empty string both fall
back to the identifier. -/
def pyTitleOr (title : Option String) (vid : String) : String :=
  match title with
  | none => vid
  | some t => if t = "" then vid else t

/-- Attempt-indexed behaviours of the three retry-wrapped catalog calls for
one identifier, plus the outcome of `_announce_added`: `none` when the
announcement returns (delivered, fell back, or swallowed a stale handle),
`some msg` when its fallback re-raises a platform error (a generic
exception). -/
structure IdOps where
  videoExists : Nat → Except PyErr Bool
  getMetadata : Nat → Except PyErr VideoMeta
  addToPlaylist : Nat → Except PyErr Unit
  announceError : Option String

/-- The retry-wrapped catalog calls the command issues, in order. -/
inductive CatalogCall where
  | membership (vid : String)
  | metadata (vid : String)
  | insert (vid : String)

deriving DecidableEq

/-- What one iteration of the `for vid in vids` loop decides for its
identifier (the identifier itself is the loop variable). -/
inductive StepKind where
  | addedOne (title : String)
  | dupOne
  | tooLongOne (title : String)
  | failedOne (err : String)
  | credAbort (msg : String)

deriving DecidableEq

/-- Outcome of one loop iteration together with the catalog calls it issued
and the retry sleeps it performed. -/
structure StepResult where
  kind : StepKind
  calls : List CatalogCall
  sleeps : List Nat

deriving DecidableEq

/-- The body of the `for vid in vids` loop in `addradio`: the
`_call_with_retry`-wrapped `video_exists`, `get_video_metadata` and
`add_to_playlist` calls, the duration gate against
`MAX_VIDEO_DURATION_SECONDS`, the announcement, and the surrounding
`except CredentialsExpiredError` / `except Exception` handlers (a caught
generic exception records `(vid, str(exc))`). -/
def processOne (env : String → IdOps) (vid : String) : StepResult :=
  let ops := env vid
  let r1 := _call_with_retry ops.videoExists
  match r1.result with
  | .error (.cred m) => ⟨.credAbort m, [.membership vid], r1.sleeps⟩
  | .error e => ⟨.failedOne e.text, [.membership vid], r1.sleeps⟩
  | .ok true => ⟨.dupOne, [.membership vid], r1.sleeps⟩
  | .ok false =>
    let r2 := _call_with_retry ops.getMetadata
    match r2.result with
    | .error (.cred m) =>
      ⟨.credAbort m, [.membership vid, .metadata vid], r1.sleeps ++ r2.sleeps⟩
    | .error e =>
      ⟨.failedOne e.text, [.membership vid, .metadata vid], r1.sleeps ++ r2.sleeps⟩
    | .ok meta =>
      let title := pyTitleOr meta.title vid
      if meta.duration_seconds.getD 0 > MAX_VIDEO_DURATION_SECONDS then
        ⟨.tooLongOne title, [.membership vid, .metadata vid], r1.sleeps ++ r2.sleeps⟩
      else
        let r3 := _call_with_retry ops.addToPlaylist
        match r3.result with
        | .error (.cred m) =>
          ⟨.credAbort m, [.membership vid, .metadata vid, .insert vid],
            r1.sleeps ++ r2.sleeps ++ r3.sleeps⟩
        | .error e =>
          ⟨.failedOne e.text, [.membership vid, .metadata vid, .insert vid],
            r1.sleeps ++ r2.sleeps ++ r3.sleeps⟩
        | .ok _ =>
          match ops.announceError with
          | some err =>
            ⟨.failedOne err, [.membership vid, .metadata vid, .insert vid],
              r1.sleeps ++ r2.sleeps ++ r3.sleeps⟩
          | none =>
            ⟨.addedOne title, [.membership vid, .metadata vid, .insert vid],
              r1.sleeps ++ r2.sleeps ++ r3.sleeps⟩

/-- The four outcome accumulators of `addradio`, the catalog calls and sleeps
observed, and whether (and with which message) the batch was aborted by
`CredentialsExpiredError`. -/
structure BatchResult where
  added : List (String × String)
  duplicates : List String
  too_long : List (String × String)
  failures : List (String × String)
  calls : List CatalogCall
  sleeps : List Nat
  aborted : Option String

deriving DecidableEq

def emptyBatch : BatchResult := ⟨[], [], [], [], [], [], none⟩

/-- The `for vid in vids` loop: on `CredentialsExpiredError` the command
replies with `str(e)` and returns immediately, so no later identifier is
processed and the aborting identifier joins no outcome list. -/
def processVids (env : String → IdOps) : List String → BatchResult
  | [] => emptyBatch
  | vid :: rest =>
    match processOne env vid with
    | ⟨.credAbort m, cs, ss⟩ =>
      { emptyBatch with calls := cs, sleeps := ss, aborted := some m }
    | ⟨.addedOne t, cs, ss⟩ =>
      let r := processVids env rest
      { r with
        added := (vid, t) :: r.added
        calls := cs ++ r.calls
        sleeps := ss ++ r.sleeps }
    | ⟨.dupOne, cs, ss⟩ =>
      let r := processVids env rest
      { r with
        duplicates := vid :: r.duplicates
        calls := cs ++ r.calls
        sleeps := ss ++ r.sleeps }
    | ⟨.tooLongOne t, cs, ss⟩ =>
      let r := processVids env rest
      { r with
        too_long := (vid, t) :: r.too_long
        calls := cs ++ r.calls
        sleeps := ss ++ r.sleeps }
    | ⟨.failedOne e, cs, ss⟩ =>
      let r := processVids env rest
      { r with
        failures := (vid, e) :: r.failures
        calls := cs ++ r.calls
        sleeps := ss ++ r.sleeps }

/-- A fixed benign environment for concrete instantiations: never a
duplicate, metadata with a short duration, successful insert, successful
announcement. -/
def trivialEnv : String → IdOps := fun vid =>
  ⟨fun _ => .ok false,
   fun _ => .ok ⟨vid, some ("Video " ++ vid), "Test Channel", some 120,
     "https://youtu.be/" ++ vid, none⟩,
   fun _ => .ok (),
   none⟩

/-- The metadata value used to instantiate the duration-cap theorem. -/
def meta601 : VideoMeta :=
  ⟨"TOOLONG9999", some "Long Video", "Test Channel", some 601,
    "https://youtu.be/TOOLONG9999", none⟩

/-- An environment whose metadata reports a 601-second duration. -/
def env601 : String → IdOps := fun _ =>
  ⟨fun _ => .ok false, fun _ => .ok meta601, fun _ => .ok (), none⟩

/-- An environment in which exactly the identifier `FAILVID1234` fails its
insert with a generic (retryable, eventually exhausted) error. -/
def mixedEnv : String → IdOps := fun vid =>
  if vid = "FAILVID1234" then
    ⟨fun _ => .ok false,
     fun _ => .ok ⟨vid, some "Fails", "Test Channel", some 100,
       "https://youtu.be/" ++ vid, none⟩,
     fun _ => .error (.generic "insert boom"),
     none⟩
  else trivialEnv vid

/-- The retry loop is insensitive to the non-retryable classification as long
as the two classifications agree on every exception the wrapped function can
actually raise. -/
theorem retryRunList_congr {α : Type} (nr1 nr2 : PyErr → Bool) (f : Nat → Except PyErr α)
    (h : ∀ n e, f n = .error e → nr1 e = nr2 e) :
    ∀ (ws : List Nat) (attempt : Nat),
      retryRunList nr1 f attempt ws = retryRunList nr2 f attempt ws := by
  intro ws
  induction ws with
  | nil => intro attempt; rfl
  | cons wait rest ih =>
    intro attempt
    simp only [retryRunList]
    cases hf : f attempt with
    | ok v => rfl
    | error e =>
      dsimp only
      rw [h attempt e hf]
      by_cases hnr : nr2 e = true
      · rw [if_pos hnr, if_pos hnr]
      · rw [if_neg hnr, if_neg hnr]
        by_cases hrest : rest.isEmpty = true
        · rw [if_pos hrest, if_pos hrest]
        · rw [if_neg hrest, if_neg hrest]
          simp only [ih (attempt + 1)]

/-- C1.  An operation failing on every attempt with a generic retryable error
exhausts the schedule: the wrapped function is attempted exactly 14 times, the
observed sleeps are ten 5-second waits (before attempts 2-11) followed by 60,
300 and 600 seconds (before attempts 12, 13, 14; nothing is slept before the
first attempt), and the error raised on the final attempt is re-raised.  This
holds for both `call_with_retry` (`bot/retry.py`) and `_call_with_retry`
(`bot/main.py`). -/
theorem claim_C1 {α : Type} (f : Nat → Except PyErr α) (g : Nat → String)
    (h : ∀ n, f n = Except.error (PyErr.generic (g n))) :
    (call_with_retry f).result = Except.error (PyErr.generic (g 14)) ∧
    (call_with_retry f).calls = [1, 2, 3, 4, 5, 6, 7, 8, 9, 10, 11, 12, 13, 14] ∧
    (call_with_retry f).sleeps = [5, 5, 5, 5, 5, 5, 5, 5, 5, 5, 60, 300, 600] ∧
    (_call_with_retry f).result = Except.error (PyErr.generic (g 14)) ∧
    (_call_with_retry f).calls = [1, 2, 3, 4, 5, 6, 7, 8, 9, 10, 11, 12, 13, 14] ∧
    (_call_with_retry f).sleeps = [5, 5, 5, 5, 5, 5, 5, 5, 5, 5, 60, 300, 600] := by
  have hs : RETRY_WAIT_SECONDS = [0, 5, 5, 5, 5, 5, 5, 5, 5, 5, 5, 60, 300, 600] := by decide
  have hs' : _RETRY_WAIT_SECONDS = [0, 5, 5, 5, 5, 5, 5, 5, 5, 5, 5, 60, 300, 600] := by decide
  refine ⟨?_, ?_, ?_, ?_, ?_, ?_⟩ <;>
    simp [call_with_retry, _call_with_retry, hs, hs', retryRunList, h,
      nonRetryableRetryPy, nonRetryableMainPy, _FAST_RETRY_DELAY_SECONDS,
      _FAST_RETRY_ATTEMPTS, _SLOW_RETRY_DELAYS]

theorem claim_C1_witness :
    (call_with_retry (fun _ => (Except.error (PyErr.generic "boom") : Except PyErr Unit))).result
        = Except.error (PyErr.generic "boom") ∧
    (call_with_retry (fun _ => (Except.error (PyErr.generic "boom") : Except PyErr Unit))).calls
        = [1, 2, 3, 4, 5, 6, 7, 8, 9, 10, 11, 12, 13, 14] ∧
    (call_with_retry (fun _ => (Except.error (PyErr.generic "boom") : Except PyErr Unit))).sleeps
        = [5, 5, 5, 5, 5, 5, 5, 5, 5, 5, 60, 300, 600] ∧
    (_call_with_retry (fun _ => (Except.error (PyErr.generic "boom") : Except PyErr Unit))).result
        = Except.error (PyErr.generic "boom") ∧
    (_call_with_retry (fun _ => (Except.error (PyErr.generic "boom") : Except PyErr Unit))).calls
        = [1, 2, 3, 4, 5, 6, 7, 8, 9, 10, 11, 12, 13, 14] ∧
    (_call_with_retry (fun _ => (Except.error (PyErr.generic "boom") : Except PyErr Unit))).sleeps
        = [5, 5, 5, 5, 5, 5, 5, 5, 5, 5, 60, 300, 600] :=
  claim_C1 (fun _ => .error (.generic "boom")) (fun _ => "boom") (fun _ => rfl)

/-- C7.  An operation raising the non-retryable `CredentialsExpiredError` on
its first attempt is not retried: the executor performs no sleep, calls the
operation exactly once, and the exception propagates unchanged.  This holds
for both executors. -/
theorem claim_C7 {α : Type} (f : Nat → Except PyErr α) (msg : String)
    (h : f 1 = Except.error (PyErr.cred msg)) :
    call_with_retry f = ⟨Except.error (PyErr.cred msg), [], [1]⟩ ∧
    _call_with_retry f = ⟨Except.error (PyErr.cred msg), [], [1]⟩ := by
  have hs : RETRY_WAIT_SECONDS = 0 :: [5, 5, 5, 5, 5, 5, 5, 5, 5, 5, 60, 300, 600] := by decide
  have hs' : _RETRY_WAIT_SECONDS = 0 :: [5, 5, 5, 5, 5, 5, 5, 5, 5, 5, 60, 300, 600] := by decide
  constructor <;>
    simp [call_with_retry, _call_with_retry, hs, hs', retryRunList, h,
      nonRetryableRetryPy, nonRetryableMainPy, _FAST_RETRY_DELAY_SECONDS,
      _FAST_RETRY_ATTEMPTS, _SLOW_RETRY_DELAYS]

theorem claim_C7_witness :
    call_with_retry (fun _ => (Except.error (PyErr.cred "expired") : Except PyErr Unit))
        = ⟨Except.error (PyErr.cred "expired"), [], [1]⟩ ∧
    _call_with_retry (fun _ => (Except.error (PyErr.cred "expired") : Except PyErr Unit))
        = ⟨Except.error (PyErr.cred "expired"), [], [1]⟩ :=
  claim_C7 (fun _ => .error (.cred "expired")) "expired" rfl

/-- C10.  `call_with_retry` (`bot/retry.py`) and `_call_with_retry`
(`bot/main.py`) define the identical 14-entry wait schedule
`(0,) + (5,) * 10 + (60, 300, 600)`, and on any operation that never raises
`MissingGoogleDependenciesError` (its outcomes are successes, generic
retryable errors, or `CredentialsExpiredError`) they produce the same result,
raise the same exception, and perform the same sequence of waits. -/
theorem claim_C10 {α : Type} (f : Nat → Except PyErr α)
    (h : ∀ n, f n ≠ Except.error PyErr.missingDeps) :
    RETRY_WAIT_SECONDS = _RETRY_WAIT_SECONDS ∧
    RETRY_WAIT_SECONDS = [0] ++ List.replicate 10 5 ++ [60, 300, 600] ∧
    RETRY_WAIT_SECONDS.length = 14 ∧
    call_with_retry f = _call_with_retry f := by
  refine ⟨rfl, rfl, by decide, ?_⟩
  unfold call_with_retry _call_with_retry
  rw [show _RETRY_WAIT_SECONDS = RETRY_WAIT_SECONDS from rfl]
  apply retryRunList_congr
  intro n e hf
  cases e with
  | cred m => rfl
  | missingDeps => exact absurd hf (h n)
  | generic m => rfl

theorem claim_C10_witness :
    RETRY_WAIT_SECONDS = _RETRY_WAIT_SECONDS ∧
    RETRY_WAIT_SECONDS = [0] ++ List.replicate 10 5 ++ [60, 300, 600] ∧
    RETRY_WAIT_SECONDS.length = 14 ∧
    call_with_retry (fun n => if n < 3 then (Except.error (PyErr.generic "hiccup") : Except PyErr Nat) else Except.ok 7)
      = _call_with_retry (fun n => if n < 3 then (Except.error (PyErr.generic "hiccup") : Except PyErr Nat) else Except.ok 7) :=
  claim_C10 (fun n => if n < 3 then .error (.generic "hiccup") else .ok 7)
    (fun n => by by_cases h : n < 3 <;> simp [h])

/-- C5.  For a tracker whose window is `W > 0`, after `mark(u)` at time `t`,
`remaining(u, now = t + Δ)` equals `max(0, W - Δ)` for every `Δ ≥ 0`; and
`remaining` is `0` for any tracker whose configured window is `≤ 0` (the
constructor clamp makes its stored window `0`, disabling the cooldown) as
well as for any user without a recorded timestamp. -/
theorem claim_C5 (t : CooldownTracker) (W : Int) (hW : 0 < W)
    (hT : t.cooldownSeconds = W) (u : Int) (tm Δ : ℚ) (hΔ : 0 ≤ Δ) :
    (t.mark u tm).remaining u (tm + Δ) = max 0 ((W : ℚ) - Δ) ∧
    (∀ (s : CooldownTracker) (v : Int) (now : ℚ),
        s.cooldownSeconds ≤ 0 → s.remaining v now = 0) ∧
    (∀ (w : Int) (v : Int) (now : ℚ), w ≤ 0 →
        (CooldownTracker.init w).remaining v now = 0) ∧
    (∀ (s : CooldownTracker) (v : Int) (now : ℚ),
        s.timestamps v = none → s.remaining v now = 0) := by
  have hdis : ∀ (s : CooldownTracker) (v : Int) (now : ℚ),
      s.cooldownSeconds ≤ 0 → s.remaining v now = 0 := by
    intro s v now hle
    simp [CooldownTracker.remaining, hle]
  refine ⟨?_, hdis, ?_, ?_⟩
  · have hpos : ¬t.cooldownSeconds ≤ 0 := by omega
    have hposW : ¬(W : Int) ≤ 0 := by omega
    simp [CooldownTracker.mark, CooldownTracker.remaining, hT, hpos, hposW]
    rcases lt_or_le Δ ((W : ℚ)) with hgt | hnp
    · rw [if_pos hgt, max_eq_right (by linarith)]
    · rw [if_neg (not_lt.mpr hnp), max_eq_left (by linarith)]
  · intro w v now hle
    exact hdis _ _ _ (by simp [CooldownTracker.init]; omega)
  · intro s v now hnone
    by_cases hle : s.cooldownSeconds ≤ 0
    · simp [CooldownTracker.remaining, hle]
    · simp [CooldownTracker.remaining, hle, hnone]

theorem claim_C5_witness :
    ((CooldownTracker.init 30).mark 7 100).remaining 7 (100 + 12)
        = max 0 (((30 : Int) : ℚ) - 12) ∧
    (∀ (s : CooldownTracker) (v : Int) (now : ℚ),
        s.cooldownSeconds ≤ 0 → s.remaining v now = 0) ∧
    (∀ (w : Int) (v : Int) (now : ℚ), w ≤ 0 →
        (CooldownTracker.init w).remaining v now = 0) ∧
    (∀ (s : CooldownTracker) (v : Int) (now : ℚ),
        s.timestamps v = none → s.remaining v now = 0) :=
  claim_C5 (CooldownTracker.init 30) 30 (by decide) (by decide) 7 100 12 (by decide)

theorem pad2_length : ∀ k : Nat, k < 100 → (pad2 k).length = 2 := by decide

/-- C9.  For every non-negative number of seconds the announced duration is
`H:MM:SS` (hours unpadded, minutes and seconds zero-padded to two digits) when
the total is at least 3600 seconds, and `M:SS` (minutes unpadded, seconds
zero-padded) otherwise. -/
theorem claim_C9 (n : Nat) :
    _format_duration (n : Int)
      = (if 3600 ≤ n then
          toString (n / 3600) ++ ":" ++ pad2 (n % 3600 / 60) ++ ":" ++ pad2 (n % 60)
        else
          toString (n / 60) ++ ":" ++ pad2 (n % 60)) ∧
    (pad2 (n % 3600 / 60)).length = 2 ∧ (pad2 (n % 60)).length = 2 := by
  have hc : (max 0 (n : Int)).toNat = n := by
    rw [max_eq_right (Int.natCast_nonneg n)]; exact Int.toNat_natCast n
  have hmod : n % 3600 % 60 = n % 60 := Nat.mod_mod_of_dvd n (by norm_num)
  refine ⟨?_, pad2_length _ ?_, pad2_length _ ?_⟩
  · simp only [_format_duration, hc]
    by_cases h36 : 3600 ≤ n
    · have hne : n / 3600 ≠ 0 := by
        have := Nat.div_pos h36 (by norm_num : 0 < 3600); omega
      rw [if_pos hne, if_pos h36, hmod]
    · have h0 : n / 3600 = 0 := Nat.div_eq_of_lt (by omega)
      have hrem : n % 3600 = n := Nat.mod_eq_of_lt (by omega)
      rw [if_neg (by omega : ¬n / 3600 ≠ 0), if_neg h36, hrem]
  · have h1 : n % 3600 < 3600 := Nat.mod_lt _ (by norm_num)
    have := Nat.div_lt_of_lt_mul (by omega : n % 3600 < 60 * 60)
    omega
  · have := Nat.mod_lt n (by norm_num : 0 < 60)
    omega

/-- C6.  For an identifier that passes the duplicate check, fetched metadata
with duration strictly greater than the 600-second `MAX_VIDEO_DURATION_SECONDS`
yields the TooLong outcome carrying the metadata title and no insert call is
issued, while duration at most 600 seconds leads to the insert call being
performed. -/
theorem claim_C6 (env : String → IdOps) (vid : String) (meta : VideoMeta)
    (h1 : (_call_with_retry (env vid).videoExists).result = Except.ok false)
    (h2 : (_call_with_retry (env vid).getMetadata).result = Except.ok meta) :
    (meta.duration_seconds.getD 0 > MAX_VIDEO_DURATION_SECONDS →
        (processOne env vid).kind = StepKind.tooLongOne (pyTitleOr meta.title vid) ∧
        CatalogCall.insert vid ∉ (processOne env vid).calls) ∧
    (meta.duration_seconds.getD 0 ≤ MAX_VIDEO_DURATION_SECONDS →
        CatalogCall.insert vid ∈ (processOne env vid).calls) := by
  constructor
  · intro hdur
    simp only [processOne, h1, h2]
    rw [if_pos hdur]
    exact ⟨rfl, by simp⟩
  · intro hdur
    simp only [processOne, h1, h2]
    rw [if_neg (not_lt.mpr hdur)]
    cases hr3 : (_call_with_retry (env vid).addToPlaylist).result with
    | error e => cases e <;> simp
    | ok u => cases (env vid).announceError <;> simp

theorem claim_C6_witness :
    ((meta601.duration_seconds.getD 0 > MAX_VIDEO_DURATION_SECONDS →
        (processOne env601 "TOOLONG9999").kind
            = StepKind.tooLongOne (pyTitleOr meta601.title "TOOLONG9999") ∧
        CatalogCall.insert "TOOLONG9999" ∉ (processOne env601 "TOOLONG9999").calls) ∧
      (meta601.duration_seconds.getD 0 ≤ MAX_VIDEO_DURATION_SECONDS →
        CatalogCall.insert "TOOLONG9999" ∈ (processOne env601 "TOOLONG9999").calls)) ∧
    meta601.duration_seconds.getD 0 > MAX_VIDEO_DURATION_SECONDS ∧
    (processOne env601 "TOOLONG9999").kind = StepKind.tooLongOne "Long Video" := by
  refine ⟨claim_C6 env601 "TOOLONG9999" meta601 rfl rfl, by decide, ?_⟩
  exact ((claim_C6 env601 "TOOLONG9999" meta601 rfl rfl).1 (by decide)).1

/-- C3.  In a batch that is not aborted by a credential error, every
identifier of the input list receives exactly one outcome among Added,
Duplicate, TooLong and Failed (the four identifier groups partition the
input, counted with multiplicity), each outcome group lists its identifiers
in input order (it is a subsequence of the input), and an identifier whose
iteration ends in a caught generic failure — e.g. insert failure after retry
exhaustion — is recorded under Failed while the rest of the batch still gets
its outcomes. -/
theorem claim_C3 (env : String → IdOps) (vids : List String)
    (h : (processVids env vids).aborted = none) :
    (∀ v, ((processVids env vids).added.map Prod.fst).count v
        + (processVids env vids).duplicates.count v
        + ((processVids env vids).too_long.map Prod.fst).count v
        + ((processVids env vids).failures.map Prod.fst).count v
        = vids.count v) ∧
    ((processVids env vids).added.map Prod.fst).Sublist vids ∧
    (processVids env vids).duplicates.Sublist vids ∧
    ((processVids env vids).too_long.map Prod.fst).Sublist vids ∧
    ((processVids env vids).failures.map Prod.fst).Sublist vids ∧
    (∀ v ∈ vids, (∃ e, (processOne env v).kind = StepKind.failedOne e) →
        v ∈ (processVids env vids).failures.map Prod.fst) := by
  induction vids with
  | nil =>
    refine ⟨?_, ?_, ?_, ?_, ?_, ?_⟩ <;> simp [processVids, emptyBatch]
  | cons vid rest ih =>
    rcases hstep : processOne env vid with ⟨k, cs, ss⟩
    cases k with
    | credAbort m =>
      rw [processVids, hstep] at h
      simp at h
    | addedOne t =>
      rw [processVids, hstep] at h ⊢
      simp only at h ⊢
      obtain ⟨hc, hs1, hs2, hs3, hs4, hf⟩ := ih h
      refine ⟨?_, hs1.cons₂ vid, hs2.cons vid, hs3.cons vid, hs4.cons vid, ?_⟩
      · intro v
        simp only [List.map_cons, List.count_cons]
        rw [← hc v]
        ring
      · intro v hv hex
        rcases List.mem_cons.mp hv with rfl | hv'
        · rcases hex with ⟨e, he⟩
          rw [hstep] at he
          simp at he
        · exact hf v hv' hex
    | dupOne =>
      rw [processVids, hstep] at h ⊢
      simp only at h ⊢
      obtain ⟨hc, hs1, hs2, hs3, hs4, hf⟩ := ih h
      refine ⟨?_, hs1.cons vid, hs2.cons₂ vid, hs3.cons vid, hs4.cons vid, ?_⟩
      · intro v
        simp only [List.map_cons, List.count_cons]
        rw [← hc v]
        ring
      · intro v hv hex
        rcases List.mem_cons.mp hv with rfl | hv'
        · rcases hex with ⟨e, he⟩
          rw [hstep] at he
          simp at he
        · exact hf v hv' hex
    | tooLongOne t =>
      rw [processVids, hstep] at h ⊢
      simp only at h ⊢
      obtain ⟨hc, hs1, hs2, hs3, hs4, hf⟩ := ih h
      refine ⟨?_, hs1.cons vid, hs2.cons vid, hs3.cons₂ vid, hs4.cons vid, ?_⟩
      · intro v
        simp only [List.map_cons, List.count_cons]
        rw [← hc v]
        ring
      · intro v hv hex
        rcases List.mem_cons.mp hv with rfl | hv'
        · rcases hex with ⟨e, he⟩
          rw [hstep] at he
          simp at he
        · exact hf v hv' hex
    | failedOne e =>
      rw [processVids, hstep] at h ⊢
      simp only at h ⊢
      obtain ⟨hc, hs1, hs2, hs3, hs4, hf⟩ := ih h
      refine ⟨?_, hs1.cons vid, hs2.cons vid, hs3.cons vid, hs4.cons₂ vid, ?_⟩
      · intro v
        simp only [List.map_cons, List.count_cons]
        rw [← hc v]
        ring
      · intro v hv hex
        simp only [List.map_cons]
        rcases List.mem_cons.mp hv with rfl | hv'
        · exact List.mem_cons_self _ _
        · exact List.mem_cons_of_mem _ (hf v hv' hex)

theorem claim_C3_witness :
    (processVids mixedEnv ["AAAAAAAAAAA", "FAILVID1234", "CCCCCCCCCCC"]).aborted
        = none ∧
    (∀ v, ((processVids mixedEnv
            ["AAAAAAAAAAA", "FAILVID1234", "CCCCCCCCCCC"]).added.map Prod.fst).count v
        + (processVids mixedEnv
            ["AAAAAAAAAAA", "FAILVID1234", "CCCCCCCCCCC"]).duplicates.count v
        + ((processVids mixedEnv
            ["AAAAAAAAAAA", "FAILVID1234", "CCCCCCCCCCC"]).too_long.map Prod.fst).count v
        + ((processVids mixedEnv
            ["AAAAAAAAAAA", "FAILVID1234", "CCCCCCCCCCC"]).failures.map Prod.fst).count v
        = (["AAAAAAAAAAA", "FAILVID1234", "CCCCCCCCCCC"] : List String).count v) ∧
    "FAILVID1234" ∈ ((processVids mixedEnv
        ["AAAAAAAAAAA", "FAILVID1234", "CCCCCCCCCCC"]).failures.map Prod.fst) :=
  ⟨by decide,
   (claim_C3 mixedEnv ["AAAAAAAAAAA", "FAILVID1234", "CCCCCCCCCCC"] (by decide)).1,
   (claim_C3 mixedEnv ["AAAAAAAAAAA", "FAILVID1234", "CCCCCCCCCCC"]
       (by decide)).2.2.2.2.2 "FAILVID1234" (by decide) ⟨"insert boom", by decide⟩⟩

end T730
